import Mathlib

/-!
Verification of the WhatsApp-relay chatbot repository.

The repository has three modules:
  * `app/cliente_whatsapp.py` — the WhatsApp Cloud messaging client
    (`WhatsAppClient` with `send_text_message`, `send_template_message`,
    `process_notification`);
  * `app/cliente_openai.py` — the completion client (`OpenAIClient` with
    `complete`);
  * `app/webhook.py` — the FastAPI dispatcher (`subscribe` for the GET
    verification handshake, `callback` for the POST notification hook).

Python functions that can raise are embedded as `Except String α`, where the
error string records the Python exception.  HTTP transports and the
environment are passed as explicit function parameters, so theorems can
quantify over stubbed transports.
-/

/-! ## JSON string encoding, as `json.dumps` applied to a `str`

`json.dumps` with its default `ensure_ascii=True` quotes the string, escapes
quote, backslash and control characters, keeps printable ASCII, and writes
every other character as a `\uXXXX` escape (a surrogate pair beyond the
basic plane). -/

deriving instance DecidableEq for Except

def hexDigitChar (n : Nat) : Char :=
  if n < 10 then Char.ofNat (48 + n) else Char.ofNat (87 + n)

def hex4 (n : Nat) : String :=
  String.mk [hexDigitChar (n / 4096 % 16), hexDigitChar (n / 256 % 16),
    hexDigitChar (n / 16 % 16), hexDigitChar (n % 16)]

def jsonEscapeChar (c : Char) : String :=
  if c = '"' then "\\\""
  else if c = '\\' then "\\\\"
  else if c = '\n' then "\\n"
  else if c = '\r' then "\\r"
  else if c = '\t' then "\\t"
  else if c.toNat = 8 then "\\b"
  else if c.toNat = 12 then "\\f"
  else if 32 ≤ c.toNat ∧ c.toNat < 127 then String.mk [c]
  else if c.toNat < 65536 then "\\u" ++ hex4 c.toNat
  else "\\u" ++ hex4 (55296 + (c.toNat - 65536) / 1024) ++
       "\\u" ++ hex4 (56320 + (c.toNat - 65536) % 1024)

def json_dumps_str (s : String) : String :=
  "\"" ++ String.join (s.data.map jsonEscapeChar) ++ "\""

/-! ## `app/cliente_whatsapp.py` -/

namespace ClienteWhatsapp

/-- One HTTP response from the `requests.post` transport: `status_code` and
`text`. -/
structure HttpResponse where
  status_code : Nat
  text : String
deriving DecidableEq, Repr

/-- The `text` object of an outbound text message payload, keys
`preview_url` and `body`. -/
structure TextObject where
  preview_url : Bool
  body : String
deriving DecidableEq, Repr

/-- The payload built by `send_text_message`, keys `messaging_product`,
`to`, `type`, `text`. -/
structure TextMessagePayload where
  messaging_product : String
  «to» : String
  type : String
  text : TextObject
deriving DecidableEq, Repr

/-- The `language` object of a template payload, key `code`. -/
structure TemplateLanguage where
  code : String
deriving DecidableEq, Repr

/-- The `template` object of a template payload, keys `name` and
`language`. -/
structure TemplateObject where
  name : String
  language : TemplateLanguage
deriving DecidableEq, Repr

/-- The payload built by `send_template_message`, keys `messaging_product`,
`to`, `type`, `template`. -/
structure TemplateMessagePayload where
  messaging_product : String
  «to» : String
  type : String
  template : TemplateObject
deriving DecidableEq, Repr

/-- The payload dict literal inside `send_text_message`. -/
def send_text_payload (message phone_number : String) : TextMessagePayload :=
  ⟨"whatsapp", phone_number, "text", ⟨false, message⟩⟩

/-- `WhatsAppClient.send_text_message`: posts the text payload, then
`assert response.status_code == 200` with the response text in the
assertion message, and returns `response.status_code`.  The transport
`post` stands for `requests.post` on the messages endpoint. -/
def send_text_message (message phone_number : String)
    (post : TextMessagePayload → HttpResponse) : Except String Nat :=
  let response := post (send_text_payload message phone_number)
  if response.status_code = 200 then .ok response.status_code
  else .error ("Erro ao enviar mensagem de texto: " ++ response.text)

/-- The payload dict literal inside `send_template_message`. -/
def send_template_payload (template_name language_code phone_number : String) :
    TemplateMessagePayload :=
  ⟨"whatsapp", phone_number, "template", ⟨template_name, ⟨language_code⟩⟩⟩

/-- `WhatsAppClient.send_template_message`: posts the template payload,
then `assert response.status_code == 200` with the response text in the
assertion message, and returns `response.status_code`. -/
def send_template_message (template_name language_code phone_number : String)
    (post : TemplateMessagePayload → HttpResponse) : Except String Nat :=
  let response := post (send_template_payload template_name language_code phone_number)
  if response.status_code = 200 then .ok response.status_code
  else .error ("Erro ao enviar mensagem de template: " ++ response.text)

/-! ### The inbound notification structure

A webhook payload is a nested dict.  Every key that the code reads through
`.get` may be absent, which `Option` records.  A message's `"from"` key is
spelled `from_` because `from` is a Lean keyword. -/

/-- The `"text"` sub-object of a message: optional key `body`. -/
structure PyText where
  body : Option String
deriving DecidableEq, Repr

/-- One element of a `messages` list: optional keys `type`, `from`,
`text`. -/
structure PyMessage where
  type : Option String
  from_ : Option String
  text : Option PyText
deriving DecidableEq, Repr

/-- A `value` object: optional key `messages`. -/
structure PyValue where
  messages : Option (List PyMessage)
deriving DecidableEq, Repr

/-- One element of a `changes` list: optional key `value`. -/
structure PyChange where
  value : Option PyValue
deriving DecidableEq, Repr

/-- One element of an `entry` list: optional key `changes`. -/
structure PyEntry where
  changes : Option (List PyChange)
deriving DecidableEq, Repr

/-- A webhook payload: optional key `entry`. -/
structure PyPayload where
  entry : Option (List PyEntry)
deriving DecidableEq, Repr

/-- The dict returned by `process_notification`.  `body` holds the value of
the `"body"` key (`none` is Python `None`).  `from_no` is `none` when the
key is absent (the 403 dict has no `"from_no"` key), and otherwise holds
the Python value, itself optional. -/
structure NotifResult where
  statusCode : Nat
  body : Option String
  from_no : Option (Option String)
  isBase64Encoded : Bool
deriving DecidableEq, Repr

/-- The Python `KeyError` text used when a mandatory key is missing. -/
def keyErrorText (k : String) : String := "KeyError: " ++ k

/-- The body of the `if message.get("type") == "text"` branch:
`from_no = message.get("from")`, then `message_body = message["text"].get("body")`
— a direct index that raises `KeyError` when the message has no `"text"`
key — then the 200 dict is returned. -/
def messageResult (m : PyMessage) : Except String NotifResult :=
  match m.text with
  | some t => .ok ⟨200, t.body, some m.from_, false⟩
  | none => .error (keyErrorText "text")

/-- The `for message in value["messages"]` loop: the first message whose
`type` is `"text"` produces a result (return or raise); other messages are
skipped; `none` means the loop fell through. -/
def scanMessages : List PyMessage → Option (Except String NotifResult)
  | [] => none
  | m :: rest =>
    if m.type = some "text" then some (messageResult m) else scanMessages rest

/-- One iteration of the `for change in changes` loop:
`value = change.get("value")`, `if value:`, `if "messages" in value:`. -/
def scanChange (ch : PyChange) : Option (Except String NotifResult) :=
  match ch.value with
  | none => none
  | some v =>
    match v.messages with
    | none => none
    | some msgs => scanMessages msgs

/-- The `for change in changes` loop. -/
def scanChanges : List PyChange → Option (Except String NotifResult)
  | [] => none
  | ch :: rest =>
    match scanChange ch with
    | some r => some r
    | none => scanChanges rest

/-- One iteration of the `for entry in entries` loop:
`changes = entry.get("changes", [])`. -/
def scanEntry (e : PyEntry) : Option (Except String NotifResult) :=
  scanChanges (e.changes.getD [])

/-- The `for entry in entries` loop. -/
def scanEntries : List PyEntry → Option (Except String NotifResult)
  | [] => none
  | e :: rest =>
    match scanEntry e with
    | some r => some r
    | none => scanEntries rest

/-- The dict returned when no text message was found. -/
def unsupported_sentinel : NotifResult :=
  ⟨403, some (json_dumps_str "Método não suportado"), none, false⟩

/-- `WhatsAppClient.process_notification`: `entries = data.get("entry", [])`,
the nested loops, and the 403 fallthrough. -/
def process_notification (data : PyPayload) : Except String NotifResult :=
  match scanEntries (data.entry.getD []) with
  | some r => r
  | none => .ok unsupported_sentinel

/-! ### Specification-side description of the scan

`firstTextMessage` and `payloadMessages` follow the spec's words: the
messages of a payload in entry / change / message order, and the first one
whose declared type is `"text"`. -/

/-- Messages reachable under one change, in order (spec-side). -/
def changeMessages (ch : PyChange) : List PyMessage :=
  match ch.value with
  | some v => v.messages.getD []
  | none => []

/-- Messages reachable under one entry, in order (spec-side). -/
def entryMessages (e : PyEntry) : List PyMessage :=
  (e.changes.getD []).flatMap changeMessages

/-- All messages of a payload in entry / change / message order
(spec-side). -/
def payloadMessages (p : PyPayload) : List PyMessage :=
  (p.entry.getD []).flatMap entryMessages

/-- The first message of the list whose declared `type` is `"text"`
(spec-side). -/
def firstTextMessage : List PyMessage → Option PyMessage
  | [] => none
  | m :: rest => if m.type = some "text" then some m else firstTextMessage rest

lemma scanMessages_eq (msgs : List PyMessage) :
    scanMessages msgs = (firstTextMessage msgs).map messageResult := by
  induction msgs with
  | nil => rfl
  | cons m rest ih =>
    by_cases h : m.type = some "text" <;>
      simp [scanMessages, firstTextMessage, h, ih]

lemma firstTextMessage_append (xs ys : List PyMessage) :
    firstTextMessage (xs ++ ys) =
      match firstTextMessage xs with
      | some m => some m
      | none => firstTextMessage ys := by
  induction xs with
  | nil => simp [firstTextMessage]
  | cons m rest ih =>
    by_cases h : m.type = some "text" <;>
      simp [firstTextMessage, h, ih]

lemma scanChange_eq (ch : PyChange) :
    scanChange ch = (firstTextMessage (changeMessages ch)).map messageResult := by
  cases hv : ch.value with
  | none => simp [scanChange, changeMessages, hv, firstTextMessage]
  | some v =>
    cases hm : v.messages with
    | none => simp [scanChange, changeMessages, hv, hm, firstTextMessage]
    | some msgs => simp [scanChange, changeMessages, hv, hm, scanMessages_eq]

lemma scanChanges_eq (chs : List PyChange) :
    scanChanges chs =
      (firstTextMessage (chs.flatMap changeMessages)).map messageResult := by
  induction chs with
  | nil => rfl
  | cons ch rest ih =>
    rw [List.flatMap_cons, firstTextMessage_append]
    rw [scanChanges, scanChange_eq, ih]
    cases firstTextMessage (changeMessages ch) <;> simp

lemma scanEntry_eq (e : PyEntry) :
    scanEntry e = (firstTextMessage (entryMessages e)).map messageResult := by
  rw [scanEntry, scanChanges_eq, entryMessages]

lemma scanEntries_eq (es : List PyEntry) :
    scanEntries es =
      (firstTextMessage (es.flatMap entryMessages)).map messageResult := by
  induction es with
  | nil => rfl
  | cons e rest ih =>
    rw [List.flatMap_cons, firstTextMessage_append]
    rw [scanEntries, scanEntry_eq, ih]
    cases firstTextMessage (entryMessages e) <;> simp

/-- `process_notification` returns what the first text-typed message of the
payload dictates, and the 403 sentinel when there is none. -/
lemma process_notification_eq (p : PyPayload) :
    process_notification p =
      match firstTextMessage (payloadMessages p) with
      | some m => messageResult m
      | none => .ok unsupported_sentinel := by
  rw [process_notification, scanEntries_eq, ← payloadMessages]
  cases firstTextMessage (payloadMessages p) <;> simp

end ClienteWhatsapp

/-! ## `app/cliente_openai.py` -/

namespace ClienteOpenai

/-- One element of the `messages` list sent to `chat.completions.create`:
keys `role` and `content`. -/
structure ChatMessage where
  role : String
  content : String
deriving DecidableEq, Repr

/-- The `message` object inside a completion choice. -/
structure ChoiceMessage where
  content : String
deriving DecidableEq, Repr

/-- One element of the completion's `choices` list. -/
structure ChatChoice where
  message : ChoiceMessage
deriving DecidableEq, Repr

/-- The object returned by `chat.completions.create`: key `choices`. -/
structure ChatCompletion where
  choices : List ChatChoice
deriving DecidableEq, Repr

/-- The `OpenAIClient` object: holds the api key read at construction. -/
structure OpenAIClient where
  api_key : String
deriving DecidableEq, Repr

/-- The `ValueError` message raised by `OpenAIClient.__init__` when the key
is missing. -/
def openai_key_error : String :=
  "A variável \x27OPENAI_API_KEY\x27 não está definida nas variáveis de ambiente."

/-- `OpenAIClient.__init__`: `api_key = os.environ.get("OPENAI_API_KEY")`;
`if not api_key: raise ValueError(...)` — Python `not` is true both for
`None` (key absent) and for the empty string — else the client is built
from the key.  The environment is the explicit parameter `env`. -/
def OpenAIClient.init (env : String → Option String) : Except String OpenAIClient :=
  match env "OPENAI_API_KEY" with
  | none => .error openai_key_error
  | some api_key =>
    if api_key = "" then .error openai_key_error else .ok ⟨api_key⟩

/-- The fixed `developer` instruction of `OpenAIClient.complete`
(two adjacent string literals in the source, concatenated). -/
def developer_content : String :=
  "Você é um chatbot e só deve responder perguntas relacionadas ao tema: " ++
  "dúvidas de programação. Cordialmente, diga que não pode ajudar em outros temas."

/-- `OpenAIClient.complete`: calls `chat.completions.create` with the model
`"gpt-4o"` and the two-message context, then returns
`completion.choices[0].message.content`; the index raises `IndexError` on
an empty `choices` list.  The transport `create` stands for the API
call. -/
def complete (message : String)
    (create : String → List ChatMessage → ChatCompletion) : Except String String :=
  let completion :=
    create "gpt-4o" [⟨"developer", developer_content⟩, ⟨"user", message⟩]
  match completion.choices with
  | [] => .error "IndexError: list index out of range"
  | c :: _ => .ok c.message.content

end ClienteOpenai

/-! ## Python `int(str)` in base 10

`int` strips surrounding whitespace, accepts an optional sign, then a
non-empty digit run in which a single underscore may stand between two
digits; anything else raises `ValueError`. -/

/-- Characters `str.strip`-ped (and accepted around an int literal):
space, tab, newline, carriage return, vertical tab, form feed. -/
def isPySpace (c : Char) : Bool :=
  c = ' ' || c = '\t' || c = '\n' || c = '\r' || c.toNat = 11 || c.toNat = 12

/-- Digit run after its first digit: digits, with single underscores
allowed only between digits. -/
def pyDigitsAux (acc : Nat) : List Char → Option Nat
  | [] => some acc
  | c :: rest =>
    if c.isDigit then pyDigitsAux (acc * 10 + (c.toNat - 48)) rest
    else if c = '_' then
      match rest with
      | d :: rest2 =>
        if d.isDigit then pyDigitsAux (acc * 10 + (d.toNat - 48)) rest2 else none
      | [] => none
    else none

/-- A non-empty digit run (underscores between digits allowed), as a
number. -/
def pyDigits : List Char → Option Nat
  | [] => none
  | c :: rest => if c.isDigit then pyDigitsAux (c.toNat - 48) rest else none

/-- Python `int(s)` in base 10: `some n` on success, `none` when `int`
raises `ValueError`. -/
def pyInt (s : String) : Option Int :=
  let cs := ((s.data.dropWhile isPySpace).reverse.dropWhile isPySpace).reverse
  match cs with
  | '+' :: rest => (pyDigits rest).map Int.ofNat
  | '-' :: rest => (pyDigits rest).map (fun n => -(Int.ofNat n))
  | _ => (pyDigits cs).map Int.ofNat

/-! ## `app/webhook.py` -/

namespace WebhookApp

open ClienteWhatsapp ClienteOpenai

/-- What the `GET /webhook/` handler returns: the challenge as an integer,
or the fixed failure text. -/
inductive SubscribeResult where
  | challenge_int (n : Int)
  | failure_text (s : String)
deriving DecidableEq, Repr

/-- The fixed failure string of the verification handler. -/
def auth_failure_text : String := "Falha na autenticação. Token inválido."

/-- The `ValueError` message of `int()` on a bad literal. -/
def int_value_error (s : String) : String :=
  "ValueError: invalid literal for int() with base 10: \x27" ++ s ++ "\x27"

/-- `subscribe` (`GET /webhook/`): reads `hub.verify_token` and
`hub.challenge` from the query, and
`if verify_token == WHATSAPP_HOOK_TOKEN and challenge: return int(challenge)`
else returns the failure string.  `hook_token` is the environment value
`WHATSAPP_HOOK_TOKEN` (absent keys are `none`, and Python `None == None`
is true). -/
def subscribe (hook_token verify_token challenge : Option String) :
    Except String SubscribeResult :=
  match challenge with
  | none => .ok (.failure_text auth_failure_text)
  | some c =>
    if verify_token = hook_token ∧ c ≠ "" then
      match pyInt c with
      | some n => .ok (.challenge_int n)
      | none => .error (int_value_error c)
    else .ok (.failure_text auth_failure_text)

/-- The JSON body returned by `callback`: key `status`. -/
structure StatusBody where
  status : String
deriving DecidableEq, Repr

/-- Python truthiness of `response.get("body")`: a present, non-empty
string. -/
def optStrTruthy : Option String → Bool
  | none => false
  | some s => s != ""

/-- Python truthiness of `response.get("from_no")`: the key is present,
its value is not `None`, and the string is non-empty. -/
def fromNoTruthy : Option (Option String) → Bool
  | some (some s) => s != ""
  | _ => false

/-- `callback` (`POST /webhook/`): parses the notification; when the
result has `statusCode == 200` and truthy `body` and `from_no`, builds the
`OpenAIClient`, completes on the body, and sends the reply to the sender;
in every non-raising path it returns `{"status": "success"}, 200`.
Exceptions of any step propagate as `.error`. -/
def callback (env : String → Option String) (data : PyPayload)
    (create : String → List ChatMessage → ChatCompletion)
    (post : TextMessagePayload → HttpResponse) :
    Except String (StatusBody × Nat) :=
  match process_notification data with
  | .error e => .error e
  | .ok response =>
    if response.statusCode = 200 then
      if optStrTruthy response.body && fromNoTruthy response.from_no then
        match OpenAIClient.init env with
        | .error e => .error e
        | .ok _openai_client =>
          match complete (response.body.getD "") create with
          | .error e => .error e
          | .ok reply =>
            match send_text_message reply ((response.from_no.getD none).getD "") post with
            | .error e => .error e
            | .ok _ => .ok (⟨"success"⟩, 200)
      else .ok (⟨"success"⟩, 200)
    else .ok (⟨"success"⟩, 200)

end WebhookApp

/-! ## Concrete fixtures: stubbed environments, transports and payloads -/

namespace Fixtures

open ClienteWhatsapp ClienteOpenai WebhookApp

/-- Environment with a usable completion key. -/
def env_ok : String → Option String :=
  fun k => if k = "OPENAI_API_KEY" then some "sk-test" else none

/-- Environment where `OPENAI_API_KEY` is present but empty. -/
def env_empty_key : String → Option String :=
  fun k => if k = "OPENAI_API_KEY" then some "" else none

/-- Environment with no variables at all. -/
def env_absent : String → Option String := fun _ => none

/-- Completion transport returning a single choice. -/
def create_stub : String → List ChatMessage → ChatCompletion :=
  fun _ _ => ⟨[⟨⟨"Use a loop."⟩⟩]⟩

/-- Messaging transport answering 200. -/
def post200 : TextMessagePayload → HttpResponse := fun _ => ⟨200, "ok"⟩

/-- Messaging transport answering 500 with body `fail`. -/
def post500 : TextMessagePayload → HttpResponse := fun _ => ⟨500, "fail"⟩

/-- Template transport answering 200. -/
def postT200 : TemplateMessagePayload → HttpResponse := fun _ => ⟨200, "ok"⟩

/-- Template transport answering 400 with body `bad`. -/
def postT400 : TemplateMessagePayload → HttpResponse := fun _ => ⟨400, "bad"⟩

/-- The first text-typed message of `c1_payload`. -/
def c1_msg : PyMessage :=
  ⟨some "text", some "5511999999999", some ⟨some "what is a pointer?"⟩⟩

/-- A payload whose first entry holds only an image message and whose
second entry holds two text messages; the scan must pick `c1_msg`. -/
def c1_payload : PyPayload :=
  ⟨some [⟨some [⟨some ⟨some [⟨some "image", some "111", none⟩]⟩⟩]⟩,
         ⟨some [⟨some ⟨some [c1_msg, ⟨some "text", some "222", some ⟨some "second"⟩⟩]⟩⟩]⟩]⟩

/-- A payload whose only message declares type `text` but has no `"text"`
sub-object. -/
def c2_payload : PyPayload :=
  ⟨some [⟨some [⟨some ⟨some [⟨some "text", some "5511999999999", none⟩]⟩⟩]⟩]⟩

/-- A payload with one well-formed text message. -/
def good_payload : PyPayload :=
  ⟨some [⟨some [⟨some ⟨some [⟨some "text", some "5511999999999", some ⟨some "oi"⟩⟩]⟩⟩]⟩]⟩

end Fixtures

/-! ## The claims -/

open ClienteWhatsapp ClienteOpenai WebhookApp

/-- Claim C1: for every notification payload containing at least one
message of declared type `"text"` correctly nested under
entry → changes → value → messages (here: the entry/change/message scan
finds a first text-typed message, and that message carries its `"text"`
object), `process_notification` returns exactly that first message's data:
statusCode 200, `body` the message's text body, `from_no` the message's
`from` identifier. -/
theorem c1_process_notification_returns_first_text_message
    (p : PyPayload) (m : PyMessage) (t : PyText)
    (hfirst : firstTextMessage (payloadMessages p) = some m)
    (htext : m.text = some t) :
    process_notification p = .ok ⟨200, t.body, some m.from_, false⟩ := by
  rw [process_notification_eq, hfirst]
  simp [messageResult, htext]

/-- Witness for C1 at a payload whose scan order puts a non-text message
and a second text message around the winning one. -/
theorem c1_witness :
    firstTextMessage (payloadMessages Fixtures.c1_payload) = some Fixtures.c1_msg ∧
    Fixtures.c1_msg.text = some ⟨some "what is a pointer?"⟩ ∧
    process_notification Fixtures.c1_payload =
      .ok ⟨200, some "what is a pointer?", some (some "5511999999999"), false⟩ :=
  ⟨rfl, rfl,
   c1_process_notification_returns_first_text_message Fixtures.c1_payload
     Fixtures.c1_msg ⟨some "what is a pointer?"⟩ rfl rfl⟩

/-- Claim C2 (the code at the failing input): a message of declared type
`"text"` without the `"text"` sub-object makes `process_notification`
raise `KeyError` through the direct index `message["text"]`, instead of
returning the 403 sentinel that the never-raises contract promises. -/
theorem c2_missing_text_key_raises :
    process_notification Fixtures.c2_payload = .error (keyErrorText "text") := rfl

/-- Claim C3 counterexample: the 403 sentinel's `body` is not the string
`"unsupported method"` — the code stores
`json.dumps("Método não suportado")`. -/
theorem c3_counterexample_sentinel_body :
    process_notification ⟨none⟩ ≠
      .ok ⟨403, some "unsupported method", none, false⟩ := by decide

/-- Claim C3 as amended: for every payload with no `entry` key, with an
empty `entry` list, or more generally whose scan finds no text-typed
message, `process_notification` returns exactly
statusCode 403, body `json.dumps("Método não suportado")` (the
ASCII-escaped JSON string), no `from_no` key, `isBase64Encoded = false`. -/
theorem c3_no_text_message_returns_sentinel (p : PyPayload)
    (h : p.entry = none ∨ p.entry = some [] ∨
      firstTextMessage (payloadMessages p) = none) :
    process_notification p =
      .ok ⟨403, some "\"M\\u00e9todo n\\u00e3o suportado\"", none, false⟩ := by
  have hnone : firstTextMessage (payloadMessages p) = none := by
    rcases h with h | h | h
    · simp [payloadMessages, h, firstTextMessage]
    · simp [payloadMessages, h, firstTextMessage]
    · exact h
  rw [process_notification_eq, hnone]
  rfl

/-- Witness for C3 at the payload with no `entry` key. -/
theorem c3_witness :
    ((⟨none⟩ : PyPayload).entry = none ∨ (⟨none⟩ : PyPayload).entry = some [] ∨
      firstTextMessage (payloadMessages ⟨none⟩) = none) ∧
    process_notification ⟨none⟩ =
      .ok ⟨403, some "\"M\\u00e9todo n\\u00e3o suportado\"", none, false⟩ :=
  ⟨Or.inl rfl, c3_no_text_message_returns_sentinel ⟨none⟩ (Or.inl rfl)⟩

/-- Claim C4 counterexample: when the outbound send answers 500, the
callback does not return the success body — the assertion error
propagates. -/
theorem c4_counterexample_send_failure_propagates :
    callback Fixtures.env_ok Fixtures.good_payload Fixtures.create_stub Fixtures.post500 ≠
      .ok (⟨"success"⟩, 200) := by decide

/-- Claim C4 as amended: whenever the callback handler returns normally
(no step raised), the returned value is exactly
`{"status": "success"}` with HTTP status 200; an exception in parse,
client construction, completion or send propagates instead. -/
theorem c4_callback_success_when_no_exception
    (env : String → Option String) (data : PyPayload)
    (create : String → List ChatMessage → ChatCompletion)
    (post : TextMessagePayload → HttpResponse)
    (r : StatusBody × Nat)
    (h : callback env data create post = .ok r) :
    r = (⟨"success"⟩, 200) := by
  unfold callback at h
  repeat' split at h
  all_goals simp_all

/-- Witness for C4 at a fully successful run. -/
theorem c4_witness :
    callback Fixtures.env_ok Fixtures.good_payload Fixtures.create_stub Fixtures.post200 =
      .ok (⟨"success"⟩, 200) ∧
    ((⟨"success"⟩, 200) : StatusBody × Nat) = (⟨"success"⟩, 200) :=
  ⟨rfl,
   c4_callback_success_when_no_exception Fixtures.env_ok Fixtures.good_payload
     Fixtures.create_stub Fixtures.post200 (⟨"success"⟩, 200) rfl⟩

/-- Claim C5: for both send functions, a transport status other than 200
raises an error whose message carries the response body text, and a
transport status of 200 makes the call return 200. -/
theorem c5_send_status_assertion
    (message phone_number template_name language_code : String)
    (post : TextMessagePayload → HttpResponse)
    (postT : TemplateMessagePayload → HttpResponse) :
    ((post (send_text_payload message phone_number)).status_code ≠ 200 →
      ∃ s, send_text_message message phone_number post =
        .error (s ++ (post (send_text_payload message phone_number)).text)) ∧
    ((post (send_text_payload message phone_number)).status_code = 200 →
      send_text_message message phone_number post = .ok 200) ∧
    ((postT (send_template_payload template_name language_code phone_number)).status_code ≠ 200 →
      ∃ s, send_template_message template_name language_code phone_number postT =
        .error (s ++ (postT (send_template_payload template_name language_code phone_number)).text)) ∧
    ((postT (send_template_payload template_name language_code phone_number)).status_code = 200 →
      send_template_message template_name language_code phone_number postT = .ok 200) := by
  refine ⟨fun h => ⟨"Erro ao enviar mensagem de texto: ", ?_⟩, fun h => ?_,
    fun h => ⟨"Erro ao enviar mensagem de template: ", ?_⟩, fun h => ?_⟩ <;>
    simp [send_text_message, send_template_message, h]

/-- Witness for C5: failing and succeeding stubs for both send
functions. -/
theorem c5_witness :
    (∃ s, send_text_message "oi" "5511" Fixtures.post500 = .error (s ++ "fail")) ∧
    send_text_message "oi" "5511" Fixtures.post200 = .ok 200 ∧
    (∃ s, send_template_message "hello_world" "en_US" "5511" Fixtures.postT400 =
      .error (s ++ "bad")) ∧
    send_template_message "hello_world" "en_US" "5511" Fixtures.postT200 = .ok 200 :=
  ⟨(c5_send_status_assertion "oi" "5511" "hello_world" "en_US"
      Fixtures.post500 Fixtures.postT200).1 (by decide),
   (c5_send_status_assertion "oi" "5511" "hello_world" "en_US"
      Fixtures.post200 Fixtures.postT200).2.1 rfl,
   (c5_send_status_assertion "oi" "5511" "hello_world" "en_US"
      Fixtures.post200 Fixtures.postT400).2.2.1 (by decide),
   (c5_send_status_assertion "oi" "5511" "hello_world" "en_US"
      Fixtures.post200 Fixtures.postT200).2.2.2 rfl⟩

/-- Claim C6 counterexample: with the token matching and a non-empty,
non-numeric challenge, the verification handler raises `ValueError`
through the unguarded `int(challenge)` instead of returning a value. -/
theorem c6_counterexample_nonnumeric_challenge :
    subscribe (some "meu_token") (some "meu_token") (some "abc") =
      .error (int_value_error "abc") := rfl

/-- Claim C6 as amended: when the received token equals the configured
secret and the challenge is present, non-empty and a valid decimal-integer
string, `subscribe` returns the challenge as that integer; on token
mismatch, missing challenge, or empty challenge it returns the fixed
failure string. -/
theorem c6_subscribe_handshake
    (hook_token verify_token challenge : Option String) :
    (∀ c n, verify_token = hook_token → challenge = some c → c ≠ "" →
      pyInt c = some n →
      subscribe hook_token verify_token challenge = .ok (.challenge_int n)) ∧
    ((verify_token ≠ hook_token ∨ challenge = none ∨ challenge = some "") →
      subscribe hook_token verify_token challenge =
        .ok (.failure_text auth_failure_text)) := by
  constructor
  · intro c n hv hc hne hint
    subst hc
    simp [subscribe, hv, hne, hint]
  · rintro (h | h | h)
    · cases challenge with
      | none => rfl
      | some c => simp [subscribe, h]
    · subst h; rfl
    · subst h; simp [subscribe]

/-- Witness for C6: the spec's own example challenge `123456`, and a
mismatching token. -/
theorem c6_witness :
    subscribe (some "meu_token") (some "meu_token") (some "123456") =
      .ok (.challenge_int 123456) ∧
    subscribe (some "meu_token") (some "outro") (some "123456") =
      .ok (.failure_text auth_failure_text) :=
  ⟨(c6_subscribe_handshake (some "meu_token") (some "meu_token") (some "123456")).1
      "123456" 123456 rfl rfl (by decide) (by decide),
   (c6_subscribe_handshake (some "meu_token") (some "outro") (some "123456")).2
      (Or.inl (by decide))⟩

/-- Claim C7: `complete` calls the completion API with exactly the
two-message context — the fixed developer instruction, then the user text
as a user turn — and returns the content of the first choice of the
response. -/
theorem c7_complete_two_message_context (message : String)
    (create : String → List ChatMessage → ChatCompletion)
    (c : ChatChoice) (rest : List ChatChoice)
    (h : (create "gpt-4o"
        [⟨"developer", developer_content⟩, ⟨"user", message⟩]).choices = c :: rest) :
    complete message create = .ok c.message.content := by
  simp [complete, h]

/-- Witness for C7: the stubbed single-choice transport of the spec
returns exactly `Use a loop.`. -/
theorem c7_witness :
    (Fixtures.create_stub "gpt-4o"
      [⟨"developer", developer_content⟩, ⟨"user", "how do I iterate?"⟩]).choices =
      ⟨⟨"Use a loop."⟩⟩ :: [] ∧
    complete "how do I iterate?" Fixtures.create_stub = .ok "Use a loop." :=
  ⟨rfl,
   c7_complete_two_message_context "how do I iterate?" Fixtures.create_stub
     ⟨⟨"Use a loop."⟩⟩ [] rfl⟩

/-- Claim C8 counterexample: with `OPENAI_API_KEY` present but empty, the
constructor still raises `ValueError` — presence alone does not make
construction succeed. -/
theorem c8_counterexample_present_empty_key :
    (Fixtures.env_empty_key "OPENAI_API_KEY").isSome = true ∧
    OpenAIClient.init Fixtures.env_empty_key = .error openai_key_error := ⟨rfl, rfl⟩

/-- Claim C8 as amended: with `OPENAI_API_KEY` absent — or present but
empty — construction of the completion client fails immediately with the
`ValueError`, before any network call; with a non-empty key it succeeds. -/
theorem c8_init_fail_closed (env : String → Option String) :
    ((env "OPENAI_API_KEY" = none ∨ env "OPENAI_API_KEY" = some "") →
      OpenAIClient.init env = .error openai_key_error) ∧
    (∀ k, env "OPENAI_API_KEY" = some k → k ≠ "" →
      OpenAIClient.init env = .ok ⟨k⟩) := by
  constructor
  · rintro (h | h) <;> simp [OpenAIClient.init, h]
  · intro k hk hne
    simp [OpenAIClient.init, hk, hne]

/-- Witness for C8: an absent key fails, a non-empty key succeeds. -/
theorem c8_witness :
    OpenAIClient.init Fixtures.env_absent = .error openai_key_error ∧
    OpenAIClient.init Fixtures.env_ok = .ok ⟨"sk-test"⟩ :=
  ⟨(c8_init_fail_closed Fixtures.env_absent).1 (Or.inl rfl),
   (c8_init_fail_closed Fixtures.env_ok).2 "sk-test" (by decide) (by decide)⟩

/-- Modelled from the spec: the documented outbound text-message payload —
recipient in `to`, type `"text"`, and a `text` object with the message
body and the URL-preview flag set to false, together with the
`messaging_product: "whatsapp"` marker of the messaging API (§6); field
names as the platform API spells them. -/
def documented_text_payload (message recipient : String) : TextMessagePayload :=
  ⟨"whatsapp", recipient, "text", ⟨false, message⟩⟩

/-- Claim C9: for every message and recipient, `send_text_message` builds
exactly the documented payload, and with a stubbed transport answering
200 it returns 200. -/
theorem c9_send_text_payload_shape (message phone_number : String)
    (post : TextMessagePayload → HttpResponse) :
    send_text_payload message phone_number =
      documented_text_payload message phone_number ∧
    ((post (send_text_payload message phone_number)).status_code = 200 →
      send_text_message message phone_number post = .ok 200) :=
  ⟨rfl, fun h => by simp [send_text_message, h]⟩

/-- Witness for C9 with the 200 stub. -/
theorem c9_witness :
    send_text_payload "oi" "5511999999999" =
      documented_text_payload "oi" "5511999999999" ∧
    send_text_message "oi" "5511999999999" Fixtures.post200 = .ok 200 :=
  ⟨(c9_send_text_payload_shape "oi" "5511999999999" Fixtures.post200).1,
   (c9_send_text_payload_shape "oi" "5511999999999" Fixtures.post200).2 rfl⟩

/-- Claim C10: with the received token equal to the configured secret and
a non-empty challenge that is not a decimal-integer string, the
verification handler raises (the `int` conversion is unguarded) instead of
returning a value. -/
theorem c10_subscribe_raises_on_nonnumeric_challenge
    (hook_token : Option String) (c : String)
    (hne : c ≠ "") (hbad : pyInt c = none) :
    subscribe hook_token hook_token (some c) = .error (int_value_error c) := by
  simp [subscribe, hne, hbad]

/-- Witness for C10 at the challenge `12x`. -/
theorem c10_witness :
    ("12x" ≠ "") ∧ pyInt "12x" = none ∧
    subscribe (some "segredo") (some "segredo") (some "12x") =
      .error (int_value_error "12x") :=
  ⟨by decide, by decide,
   c10_subscribe_raises_on_nonnumeric_challenge (some "segredo") "12x"
     (by decide) (by decide)⟩
